import Mathlib

/-!
Shallow embedding of the SVGPanAndZoom library (src/svgpanandzoom.js).

JavaScript numbers are modelled as real numbers; Math.pow is Real.rpow,
Math.sqrt is Real.sqrt, Math.min/Math.max are min/max.  Each event handler
is a pure function from its state and the event data to the updated state,
the list of callback invocations it performs (a pan or zoom request), and
a Boolean telling whether it consumed the event (event.preventDefault).
Viewer methods return the updated viewer together with the list of
rectangles published to the SVG document by redraw, so that "publishes
exactly once" is the statement that this list has length one.  Accessing a
property of a null finger slot or of a missing touch would throw in
JavaScript, so touchMoveHandler returns an Option, none being the throw.
-/

noncomputable section

namespace SVGPAZ

/-- A pan or zoom request sent to the viewer through the callbacks. -/
inductive Call : Type
  | pan (deltaX deltaY : ℝ)
  | zoom (delta : ℝ)
  deriving DecidableEq

/-- The viewBox rectangle published by Viewer.prototype.redraw:
top-left corner and dimensions. -/
structure ViewRect where
  topX : ℝ
  topY : ℝ
  viewWidth : ℝ
  viewHeight : ℝ

/-- The state of SVGPAZ.Viewer: document extent, current center, zoom
level, divider and container ratio (the DOM element itself is not part of
the state; publications to it are returned explicitly). -/
structure Viewer where
  maxWidth : ℝ
  maxHeight : ℝ
  centerX : ℝ
  centerY : ℝ
  zoom : ℝ
  divider : ℝ
  containerRatio : ℝ

/-- The SVGPAZ.Viewer constructor: centers on the document midpoint,
zoom level 1, divider 1; containerRatio is maxWidth divided by the
container's pixel width (offsetWidth). -/
def Viewer.mk' (width height offsetWidth : ℝ) : Viewer :=
  { maxWidth := width
    maxHeight := height
    centerX := width / 2
    centerY := height / 2
    zoom := 1
    divider := 1
    containerRatio := width / offsetWidth }

/-- Viewer.prototype.redraw: the viewBox rectangle computed from the
current viewer state. -/
def Viewer.redraw (v : Viewer) : ViewRect :=
  { topX := v.centerX - v.maxWidth / v.divider / 2
    topY := v.centerY - v.maxHeight / v.divider / 2
    viewWidth := v.maxWidth / v.divider
    viewHeight := v.maxHeight / v.divider }

/-- Viewer.prototype.panningSet: convert the screen-unit deltas to SVG
units, add them to the center, then redraw. -/
def Viewer.panningSet (v : Viewer) (deltaX deltaY : ℝ) :
    Viewer × List ViewRect :=
  let v2 := { v with
    centerX := v.centerX + deltaX * v.containerRatio / v.divider
    centerY := v.centerY + deltaY * v.containerRatio / v.divider }
  (v2, [v2.redraw])

/-- Viewer.prototype.zoomSet: clamp the new zoom level to [1, 10],
recompute the divider as 2^(zoom - 1) (Math.pow on real numbers),
then redraw. -/
def Viewer.zoomSet (v : Viewer) (delta : ℝ) : Viewer × List ViewRect :=
  let zoom := min 10 (max 1 (v.zoom + delta))
  let divider := (2 : ℝ) ^ (zoom - 1)
  let v2 := { v with zoom := zoom, divider := divider }
  (v2, [v2.redraw])

/-- The mutable state of SVGPAZ.MouseHandler: whether a drag is in
progress and the last recorded mouse position. -/
structure MouseHandler where
  dragging : Bool
  originX : ℝ
  originY : ℝ

/-- The SVGPAZ.MouseHandler constructor: not dragging, origin (0, 0). -/
def MouseHandler.init : MouseHandler :=
  { dragging := false, originX := 0, originY := 0 }

/-- MouseHandler.prototype.mouseDownHandler: start a drag at the event's
client coordinates and consume the event. -/
def MouseHandler.mouseDownHandler (_ : MouseHandler) (clientX clientY : ℝ) :
    MouseHandler × Bool :=
  ({ dragging := true, originX := clientX, originY := clientY }, true)

/-- MouseHandler.prototype.mouseUpHandler: stop dragging, consume the
event. -/
def MouseHandler.mouseUpHandler (m : MouseHandler) : MouseHandler × Bool :=
  ({ m with dragging := false }, true)

/-- MouseHandler.prototype.mouseMoveHandler: while dragging, invoke the
pan callback with origin minus current position, record the current
position as the new origin and consume the event; otherwise do nothing. -/
def MouseHandler.mouseMoveHandler (m : MouseHandler) (clientX clientY : ℝ) :
    MouseHandler × List Call × Bool :=
  if m.dragging then
    ({ m with originX := clientX, originY := clientY },
     [Call.pan (m.originX - clientX) (m.originY - clientY)], true)
  else
    (m, [], false)

/-- Step 1 of MouseHandler.prototype.normalizeWheelDelta: turn the raw
detail / wheelDelta pair into a first delta.  JavaScript truthiness tests
on numbers are non-zero tests. -/
def rawWheelDelta (detail wheelDelta : ℝ) : ℝ :=
  if detail ≠ 0 then
    if wheelDelta ≠ 0 ∧ wheelDelta / detail ≠ 0 then
      detail / (wheelDelta / detail)
    else
      -detail / 1.35
  else
    wheelDelta / 120

/-- Step 2 of MouseHandler.prototype.normalizeWheelDelta: quadratic scale
applied when the magnitude exceeds 1, with n = 225 and n1 = 224. -/
def quadraticScale (delta : ℝ) : ℝ :=
  if delta < 1 then
    if delta < -1 then (-(delta ^ 2) - 224) / 225 else delta
  else
    (delta ^ 2 + 224) / 225

/-- MouseHandler.prototype.normalizeWheelDelta: raw delta, quadratic
scale, then halve and clamp to [-1, 1]. -/
def normalizeWheelDelta (detail wheelDelta : ℝ) : ℝ :=
  min (max (quadraticScale (rawWheelDelta detail wheelDelta) / 2) (-1)) 1

/-- KeyboardHandler.prototype.keydownHandler: map the key code to a fixed
pan or zoom callback invocation; the event is never consumed (the handler
never calls preventDefault).  The key code is event.which when truthy,
event.keyCode otherwise. -/
def keydownHandler (which keyCode : Int) : List Call × Bool :=
  let charCode := if which ≠ 0 then which else keyCode
  if charCode = 107 then ([Call.zoom 1], false)
  else if charCode = 109 then ([Call.zoom (-1)], false)
  else if charCode = 39 then ([Call.pan 10 0], false)
  else if charCode = 37 then ([Call.pan (-10) 0], false)
  else if charCode = 38 then ([Call.pan 0 (-10)], false)
  else if charCode = 40 then ([Call.pan 0 10], false)
  else ([], false)

/-- One touch point of a touch event (pageX / pageY coordinates). -/
structure Touch where
  pageX : ℝ
  pageY : ℝ

/-- The mutable state of SVGPAZ.TouchHandler: the mode (number of tracked
fingers, 0, 1 or 2) and the two finger slots, null (none) until first
written. -/
structure TouchHandler where
  mode : ℕ
  fingers : Option Touch × Option Touch

/-- The SVGPAZ.TouchHandler constructor: mode 0, both finger slots null. -/
def TouchHandler.init : TouchHandler :=
  { mode := 0, fingers := (none, none) }

/-- TouchHandler.prototype.touchStartHandler: set the mode to the number
of touches; if that is neither 1 nor 2, force mode 0 and return; otherwise
snapshot the first mode touches into the finger slots. -/
def TouchHandler.touchStartHandler (t : TouchHandler)
    (touches : List Touch) : TouchHandler :=
  let mode := touches.length
  if mode ≠ 1 ∧ mode ≠ 2 then
    { t with mode := 0 }
  else
    { mode := mode
      fingers :=
        (if 1 ≤ mode then touches.get? 0 else t.fingers.1,
         if 2 ≤ mode then touches.get? 1 else t.fingers.2) }

/-- TouchHandler.prototype.touchEndHandler is the very same function as
touchStartHandler. -/
def TouchHandler.touchEndHandler : TouchHandler → List Touch → TouchHandler :=
  TouchHandler.touchStartHandler

/-- TouchHandler.prototype.touchMoveHandler: in mode 1 invoke the pan
callback with finger 0 minus touch 0 and re-snapshot finger 0; in mode 2
invoke the zoom callback with the change of the Euclidean distance between
the two fingers divided by 100 and re-snapshot both fingers; in both cases
consume the event.  In any other mode do nothing.  Reading a coordinate of
a null finger slot or of a missing touch throws in JavaScript: none. -/
def TouchHandler.touchMoveHandler (t : TouchHandler) (touches : List Touch) :
    Option (TouchHandler × List Call × Bool) :=
  if t.mode = 1 then do
    let finger0 ← t.fingers.1
    let touch0 ← touches.get? 0
    pure ({ t with fingers := (some touch0, t.fingers.2) },
          [Call.pan (finger0.pageX - touch0.pageX)
                    (finger0.pageY - touch0.pageY)], true)
  else if t.mode = 2 then do
    let finger0 ← t.fingers.1
    let finger1 ← t.fingers.2
    let touch0 ← touches.get? 0
    let touch1 ← touches.get? 1
    let previousDistance := Real.sqrt
      ((finger0.pageX - finger1.pageX) ^ 2 +
       (finger0.pageY - finger1.pageY) ^ 2)
    let currentDistance := Real.sqrt
      ((touch0.pageX - touch1.pageX) ^ 2 +
       (touch0.pageY - touch1.pageY) ^ 2)
    pure ({ t with fingers := (some touch0, some touch1) },
          [Call.zoom ((currentDistance - previousDistance) / 100)], true)
  else
    pure (t, [], false)

/-! ## Theorems -/

/-- Claim C1: for every viewer state and every zoom request delta, after
zoomSet(delta) the zoom level lies in [1, 10] and the divider equals
2^(zoom - 1) exactly; out-of-range requests are silently clamped.  In
particular, from zoom = 1 (divider = 1) zoomSet(1) yields zoom = 2,
divider = 2, and from that state zoomSet(20) yields zoom = 10,
divider = 512. -/
theorem zoomSet_clamps_and_divider_invariant :
    (∀ (v : Viewer) (delta : ℝ),
        1 ≤ (v.zoomSet delta).1.zoom ∧ (v.zoomSet delta).1.zoom ≤ 10 ∧
        (v.zoomSet delta).1.divider =
          (2 : ℝ) ^ ((v.zoomSet delta).1.zoom - 1))
    ∧ ((Viewer.mk' 400 300 200).zoomSet 1).1.zoom = 2
    ∧ ((Viewer.mk' 400 300 200).zoomSet 1).1.divider = 2
    ∧ (((Viewer.mk' 400 300 200).zoomSet 1).1.zoomSet 20).1.zoom = 10
    ∧ (((Viewer.mk' 400 300 200).zoomSet 1).1.zoomSet 20).1.divider = 512 := by
  refine ⟨fun v delta => ⟨le_min (by norm_num) (le_max_left 1 _),
    min_le_left _ _, rfl⟩, ?_, ?_, ?_, ?_⟩
  · simp only [Viewer.zoomSet, Viewer.mk']
    norm_num
  · simp only [Viewer.zoomSet, Viewer.mk']
    rw [show min (10:ℝ) (max 1 (1 + 1)) = 2 by norm_num]
    rw [show ((2:ℝ) - 1) = 1 by norm_num, Real.rpow_one]
  · simp only [Viewer.zoomSet, Viewer.mk']
    norm_num
  · simp only [Viewer.zoomSet, Viewer.mk']
    rw [show min (10:ℝ) (max 1 (min 10 (max 1 (1 + 1)) + 20)) = 10 by
      norm_num]
    rw [show ((10:ℝ) - 1) = ((9:ℕ):ℝ) by norm_num, Real.rpow_natCast]
    norm_num

/-- Claim C2: panningSet adds deltaX * containerRatio / divider to
centerX and deltaY * containerRatio / divider to centerY, applies no
clamping to the center (the center may leave the document extent, as the
concrete instance shows), and publishes the recomputed visible rectangle
exactly once. -/
theorem panningSet_formula_and_publish :
    (∀ (v : Viewer) (deltaX deltaY : ℝ),
        (v.panningSet deltaX deltaY).1.centerX =
          v.centerX + deltaX * v.containerRatio / v.divider ∧
        (v.panningSet deltaX deltaY).1.centerY =
          v.centerY + deltaY * v.containerRatio / v.divider ∧
        (v.panningSet deltaX deltaY).2 =
          [(v.panningSet deltaX deltaY).1.redraw] ∧
        (v.panningSet deltaX deltaY).2.length = 1)
    ∧ ((Viewer.mk' 100 100 100).panningSet 1000 0).1.centerX = 1050
    ∧ (Viewer.mk' 100 100 100).maxWidth <
        ((Viewer.mk' 100 100 100).panningSet 1000 0).1.centerX := by
  refine ⟨fun v dx dy => ⟨rfl, rfl, rfl, rfl⟩, ?_, ?_⟩
  · simp only [Viewer.panningSet, Viewer.mk']
    norm_num
  · simp only [Viewer.panningSet, Viewer.mk']
    norm_num

/-- Claim C4: two sequential pans of (a, b) then (c, d) yield the same
final center as the single pan (a + c, b + d), and pan (dx, dy) followed
by pan (-dx, -dy) restores the original center exactly. -/
theorem panningSet_additive_and_roundtrip (v : Viewer) (a b c d : ℝ) :
    (((v.panningSet a b).1.panningSet c d).1.centerX =
        (v.panningSet (a + c) (b + d)).1.centerX ∧
      ((v.panningSet a b).1.panningSet c d).1.centerY =
        (v.panningSet (a + c) (b + d)).1.centerY)
    ∧ ((v.panningSet a b).1.panningSet (-a) (-b)).1.centerX = v.centerX
    ∧ ((v.panningSet a b).1.panningSet (-a) (-b)).1.centerY = v.centerY := by
  refine ⟨⟨?_, ?_⟩, ?_, ?_⟩ <;>
    simp only [Viewer.panningSet] <;> ring

/-- Claim C9: frame condition — zoomSet changes only the zoom and divider
fields, and panningSet changes only centerX and centerY. -/
theorem viewer_frame_conditions (v : Viewer) (delta deltaX deltaY : ℝ) :
    ((v.zoomSet delta).1.centerX = v.centerX ∧
      (v.zoomSet delta).1.centerY = v.centerY ∧
      (v.zoomSet delta).1.maxWidth = v.maxWidth ∧
      (v.zoomSet delta).1.maxHeight = v.maxHeight ∧
      (v.zoomSet delta).1.containerRatio = v.containerRatio)
    ∧ ((v.panningSet deltaX deltaY).1.zoom = v.zoom ∧
      (v.panningSet deltaX deltaY).1.divider = v.divider ∧
      (v.panningSet deltaX deltaY).1.maxWidth = v.maxWidth ∧
      (v.panningSet deltaX deltaY).1.maxHeight = v.maxHeight ∧
      (v.panningSet deltaX deltaY).1.containerRatio = v.containerRatio) :=
  ⟨⟨rfl, rfl, rfl, rfl, rfl⟩, ⟨rfl, rfl, rfl, rfl, rfl⟩⟩

/-- Claim C3: for all (finite real) detail and wheelDelta values the
normalized wheel delta lies within [-1, 1], and the last step of the
normalizer divides the intermediate delta by 2 and clamps the result to
[-1, 1]. -/
theorem normalizeWheelDelta_bounded (detail wheelDelta : ℝ) :
    -1 ≤ normalizeWheelDelta detail wheelDelta ∧
    normalizeWheelDelta detail wheelDelta ≤ 1 ∧
    normalizeWheelDelta detail wheelDelta =
      min (max (quadraticScale (rawWheelDelta detail wheelDelta) / 2) (-1))
        1 :=
  ⟨le_min (le_max_right _ _) (by norm_num), min_le_right _ _, rfl⟩

/-- Claim C8: the quadratic-emphasis step leaves every delta in [-1, 1]
unchanged (including the boundary delta = 1, where the formula applies and
evaluates to 1), maps delta > 1 to (delta^2 + 224) / 225 and delta < -1 to
(-delta^2 - 224) / 225. -/
theorem quadraticScale_cases (delta : ℝ) :
    (-1 ≤ delta → delta ≤ 1 → quadraticScale delta = delta)
    ∧ (1 < delta → quadraticScale delta = (delta ^ 2 + 224) / 225)
    ∧ (delta < -1 → quadraticScale delta = (-(delta ^ 2) - 224) / 225)
    ∧ quadraticScale 1 = 1 := by
  refine ⟨fun h1 h2 => ?_, fun h => ?_, fun h => ?_, ?_⟩
  · rcases lt_or_eq_of_le h2 with h | h
    · rw [quadraticScale, if_pos h, if_neg (not_lt.mpr h1)]
    · subst h
      rw [quadraticScale, if_neg (lt_irrefl 1)]
      norm_num
  · rw [quadraticScale, if_neg (not_lt.mpr h.le)]
  · rw [quadraticScale, if_pos (h.trans (by norm_num)), if_pos h]
  · rw [quadraticScale, if_neg (lt_irrefl 1)]
    norm_num

/-- Witness for the quadratic-emphasis cases at delta = 1/2, 3 and -3. -/
theorem quadraticScale_cases_witness :
    ((-1 : ℝ) ≤ 1 / 2 ∧ (1 / 2 : ℝ) ≤ 1 ∧
      quadraticScale (1 / 2) = 1 / 2)
    ∧ ((1 : ℝ) < 3 ∧ quadraticScale 3 = ((3 : ℝ) ^ 2 + 224) / 225)
    ∧ ((-3 : ℝ) < -1 ∧
      quadraticScale (-3) = (-((-3 : ℝ) ^ 2) - 224) / 225) :=
  ⟨⟨by norm_num, by norm_num,
      (quadraticScale_cases (1 / 2)).1 (by norm_num) (by norm_num)⟩,
    ⟨by norm_num, (quadraticScale_cases 3).2.1 (by norm_num)⟩,
    ⟨by norm_num, (quadraticScale_cases (-3)).2.2.1 (by norm_num)⟩⟩

/-- Claim C10: the keyboard handler never consumes the event, whether the
key code is mapped (and a pan or zoom callback fires) or not. -/
theorem keydownHandler_never_consumes :
    (∀ which keyCode : Int, (keydownHandler which keyCode).2 = false)
    ∧ keydownHandler 107 0 = ([Call.zoom 1], false)
    ∧ keydownHandler 39 0 = ([Call.pan 10 0], false)
    ∧ keydownHandler 0 65 = ([], false) := by
  refine ⟨fun which keyCode => ?_, rfl, rfl, rfl⟩
  simp only [keydownHandler]
  repeat' split
  all_goals rfl

/-- Claim C5: a mouse move while dragging invokes the pan callback exactly
once with delta (originX - currentX, originY - currentY) and then stores
the current coordinates as the new origin; a move while idle invokes no
callback.  In particular a press at (100, 100) followed by a move to
(90, 95) yields one pan callback with delta (10, 5). -/
theorem mouseMoveHandler_drag_behavior (m : MouseHandler)
    (clientX clientY : ℝ) :
    (m.dragging = true →
      m.mouseMoveHandler clientX clientY =
        ({ dragging := true, originX := clientX, originY := clientY },
         [Call.pan (m.originX - clientX) (m.originY - clientY)], true))
    ∧ (m.dragging = false →
      m.mouseMoveHandler clientX clientY = (m, [], false))
    ∧ ((MouseHandler.init.mouseDownHandler 100 100).1.mouseMoveHandler
          90 95 =
        ({ dragging := true, originX := 90, originY := 95 },
         [Call.pan 10 5], true)) := by
  refine ⟨fun h => ?_, fun h => ?_, ?_⟩
  · simp [MouseHandler.mouseMoveHandler, h]
  · simp [MouseHandler.mouseMoveHandler, h]
  · simp only [MouseHandler.mouseMoveHandler, MouseHandler.mouseDownHandler,
      MouseHandler.init, if_pos]
    norm_num

/-- Witness for the mouse-drag behavior: the dragging and idle hypotheses
are both satisfiable. -/
theorem mouseMoveHandler_drag_behavior_witness :
    ((⟨true, 100, 100⟩ : MouseHandler).dragging = true ∧
      MouseHandler.mouseMoveHandler ⟨true, 100, 100⟩ 90 95 =
        ({ dragging := true, originX := 90, originY := 95 },
         [Call.pan ((100 : ℝ) - 90) ((100 : ℝ) - 95)], true))
    ∧ ((⟨false, 0, 0⟩ : MouseHandler).dragging = false ∧
      MouseHandler.mouseMoveHandler ⟨false, 0, 0⟩ 7 8 =
        (⟨false, 0, 0⟩, [], false)) :=
  ⟨⟨rfl, (mouseMoveHandler_drag_behavior ⟨true, 100, 100⟩ 90 95).1 rfl⟩,
    ⟨rfl, (mouseMoveHandler_drag_behavior ⟨false, 0, 0⟩ 7 8).2.1 rfl⟩⟩

/-- Claim C6: a touch move in 2-finger (zooming) mode invokes the zoom
callback exactly once with delta (currentDistance - previousDistance)/100,
both distances Euclidean, and then updates both finger snapshots.  In
particular fingers moving from distance 50 to distance 150 yield
delta = 1. -/
theorem touchMoveHandler_zooming :
    (∀ (t : TouchHandler) (f0 f1 c0 c1 : Touch),
      t.mode = 2 → t.fingers = (some f0, some f1) →
      t.touchMoveHandler [c0, c1] =
        some ({ mode := 2, fingers := (some c0, some c1) },
          [Call.zoom
            ((Real.sqrt ((c0.pageX - c1.pageX) ^ 2 +
                (c0.pageY - c1.pageY) ^ 2) -
              Real.sqrt ((f0.pageX - f1.pageX) ^ 2 +
                (f0.pageY - f1.pageY) ^ 2)) / 100)],
          true))
    ∧ TouchHandler.touchMoveHandler ⟨2, (some ⟨0, 0⟩, some ⟨50, 0⟩)⟩
        [⟨0, 0⟩, ⟨150, 0⟩] =
      some (⟨2, (some ⟨0, 0⟩, some ⟨150, 0⟩)⟩, [Call.zoom 1], true) := by
  constructor
  · intro t f0 f1 c0 c1 hm hf
    obtain ⟨mode, fingers⟩ := t
    simp only at hm hf
    subst hm
    subst hf
    rfl
  · rw [show (1 : ℝ) =
        (Real.sqrt (((0 : ℝ) - 150) ^ 2 + ((0 : ℝ) - 0) ^ 2) -
          Real.sqrt (((0 : ℝ) - 50) ^ 2 + ((0 : ℝ) - 0) ^ 2)) / 100 from ?_]
    · rfl
    · rw [show (((0 : ℝ) - 150) ^ 2 + ((0 : ℝ) - 0) ^ 2) = 150 ^ 2 by
          norm_num,
        show (((0 : ℝ) - 50) ^ 2 + ((0 : ℝ) - 0) ^ 2) = 50 ^ 2 by norm_num,
        Real.sqrt_sq (by norm_num : (0 : ℝ) ≤ 150),
        Real.sqrt_sq (by norm_num : (0 : ℝ) ≤ 50)]
      norm_num

/-- Witness for the 2-finger zooming behavior at the concrete state with
fingers at distance 50 moving to distance 150. -/
theorem touchMoveHandler_zooming_witness :
    (⟨2, (some ⟨0, 0⟩, some ⟨50, 0⟩)⟩ : TouchHandler).mode = 2
    ∧ (⟨2, (some ⟨0, 0⟩, some ⟨50, 0⟩)⟩ : TouchHandler).fingers =
        (some ⟨0, 0⟩, some ⟨50, 0⟩)
    ∧ TouchHandler.touchMoveHandler ⟨2, (some ⟨0, 0⟩, some ⟨50, 0⟩)⟩
        [⟨0, 0⟩, ⟨150, 0⟩] =
      some (⟨2, (some ⟨0, 0⟩, some ⟨150, 0⟩)⟩,
        [Call.zoom
          ((Real.sqrt (((0 : ℝ) - 150) ^ 2 + ((0 : ℝ) - 0) ^ 2) -
            Real.sqrt (((0 : ℝ) - 50) ^ 2 + ((0 : ℝ) - 0) ^ 2)) / 100)],
        true) :=
  ⟨rfl, rfl,
    touchMoveHandler_zooming.1 ⟨2, (some ⟨0, 0⟩, some ⟨50, 0⟩)⟩
      ⟨0, 0⟩ ⟨50, 0⟩ ⟨0, 0⟩ ⟨150, 0⟩ rfl rfl⟩

/-- Claim C7: a touch start (or touch end, which is the same function)
with a contact count other than 1 or 2 sets the mode to 0, and a touch
move while the mode is 0 invokes neither the pan nor the zoom callback. -/
theorem touchHandler_collapse_to_idle :
    (∀ (t : TouchHandler) (touches : List Touch),
      touches.length ≠ 1 → touches.length ≠ 2 →
      (t.touchStartHandler touches).mode = 0 ∧
      (t.touchEndHandler touches).mode = 0)
    ∧ (∀ (t : TouchHandler) (touches : List Touch),
      t.mode = 0 → t.touchMoveHandler touches = some (t, [], false)) := by
  constructor
  · intro t touches h1 h2
    constructor <;>
      simp [TouchHandler.touchStartHandler, TouchHandler.touchEndHandler,
        h1, h2]
  · intro t touches h
    simp [TouchHandler.touchMoveHandler, h]

/-- Witness for the idle collapse: three simultaneous touches yield mode
0, and a touch move in mode 0 produces no callback. -/
theorem touchHandler_collapse_to_idle_witness :
    ([(⟨0, 0⟩ : Touch), ⟨10, 0⟩, ⟨20, 0⟩].length ≠ 1)
    ∧ ([(⟨0, 0⟩ : Touch), ⟨10, 0⟩, ⟨20, 0⟩].length ≠ 2)
    ∧ (TouchHandler.init.touchStartHandler
        [⟨0, 0⟩, ⟨10, 0⟩, ⟨20, 0⟩]).mode = 0
    ∧ (TouchHandler.init.touchEndHandler
        [⟨0, 0⟩, ⟨10, 0⟩, ⟨20, 0⟩]).mode = 0
    ∧ TouchHandler.init.mode = 0
    ∧ TouchHandler.init.touchMoveHandler [⟨0, 0⟩, ⟨10, 0⟩, ⟨20, 0⟩] =
        some (TouchHandler.init, [], false) :=
  ⟨by simp, by simp,
    (touchHandler_collapse_to_idle.1 TouchHandler.init
      [⟨0, 0⟩, ⟨10, 0⟩, ⟨20, 0⟩] (by simp) (by simp)).1,
    (touchHandler_collapse_to_idle.1 TouchHandler.init
      [⟨0, 0⟩, ⟨10, 0⟩, ⟨20, 0⟩] (by simp) (by simp)).2,
    rfl,
    touchHandler_collapse_to_idle.2 TouchHandler.init
      [⟨0, 0⟩, ⟨10, 0⟩, ⟨20, 0⟩] rfl⟩

end SVGPAZ

end
